import Mathlib

/-!
A shallow embedding of the state-synchronization logic of
`src/prueba2/App.js` (the `App` component): the Task Synchronizer
(`fetchTasks`, `handleAddTask`, `handleToggleComplete`) and the User
Synchronizer (`fetchUsers`, `handleCreateUser`).

Each handler is modelled as a pure function from the component state
and the (already-resolved) outcome of its single network round trip to
the successor state paired with the list of observable effects the
handler performs (the issued request, `console.error` calls, `alert`
calls, and the re-fetch triggered by user creation).  JavaScript
truthiness of `s.trim()` is `s.trim() ≠ ""`, JSON parse failure of
`response.json()` is an absent (`none`) body, and a rejected `fetch`
promise is the `networkError` outcome.
-/

namespace Prueba2

/-- `Task` record: `{ id, description, completed }` as exchanged with
the `/tasks` endpoints. -/
structure Task where
  id : Nat
  description : String
  completed : Bool
deriving DecidableEq, Repr

/-- `User` record: `{ id, username, email, password }` as exchanged with
the `/users` endpoints. -/
structure User where
  id : Nat
  username : String
  email : String
  password : String
deriving DecidableEq, Repr

/-- The outcome of one `fetch` round trip whose body, when the response
arrives and `response.json()` succeeds, parses to an `α`.
`response ok status body`: an HTTP response arrived; `ok` is
`response.ok`, `body` is `some a` when `response.json()` resolves to `a`
and `none` when parsing throws.  `networkError`: the `fetch` promise
itself rejected. -/
inductive HttpResult (α : Type) where
  | response (ok : Bool) (status : Nat) (body : Option α)
  | networkError
deriving DecidableEq, Repr

/-- The outcome of the user-creation round trip in `handleCreateUser`.
`success body`: `response.ok` held and `response.json()` gave `body`
(`none` when parsing throws).  `failure status errorBody`:
`response.ok` was false; `errorBody = none` when parsing the error body
throws, otherwise `some d` where `d` is `errorData.detail?.message`
(`none` when that evaluates to `undefined`).  `networkError`: the
`fetch` promise rejected. -/
inductive UserCreateResult where
  | success (body : Option User)
  | failure (status : Nat) (errorBody : Option (Option String))
  | networkError
deriving DecidableEq, Repr

/-- The observable effects a handler performs besides updating state:
the network request it issues, `console.error` diagnostics, `alert`
notices, and the `fetchUsers()` re-fetch triggered after a successful
user creation. -/
inductive Effect where
  | getTasks
  | postTask (description : String)
  | putTask (id : Nat) (completed : Bool)
  | getUsers
  | postUser (username : String) (email : String) (password : String)
  | consoleError (msg : String)
  | alert (msg : String)
deriving DecidableEq, Repr

/-- The `useState` cells of the `App` component that the synchronizers
read and write (the `currentView` flag plays no role in any handler). -/
structure AppState where
  tasks : List Task
  newTaskDescription : String
  taskLoading : Bool
  users : List User
  newUsername : String
  newUserEmail : String
  newUserPassword : String
  userLoading : Bool
deriving DecidableEq, Repr

/-- The JavaScript `String.prototype.trim` primitive used by the
validation checks: the string with leading and trailing whitespace
removed.  (Defined over the character list so that it evaluates by
kernel reduction; `App.js` only ever compares the result against the
empty string via truthiness.) -/
def jsTrim (s : String) : String :=
  ⟨((s.data.dropWhile Char.isWhitespace).reverse.dropWhile
      Char.isWhitespace).reverse⟩

/-- `fetchTasks` (App.js lines 21-34): GET `/tasks`; throws on
`!response.ok`, so a non-success status, a parse failure, or a network
error all land in the `catch` that logs and leaves `tasks` untouched;
on success the parsed array replaces `tasks` entirely.  The `finally`
clears `taskLoading`. -/
def fetchTasks (s : AppState) (r : HttpResult (List Task)) :
    AppState × List Effect :=
  match r with
  | .response ok _ body =>
    if ok then
      match body with
      | some data =>
        ({ s with tasks := data, taskLoading := false }, [.getTasks])
      | none =>
        ({ s with taskLoading := false },
         [.getTasks, .consoleError "Failed to fetch tasks:"])
    else
      ({ s with taskLoading := false },
       [.getTasks, .consoleError "Failed to fetch tasks:"])
  | .networkError =>
    ({ s with taskLoading := false },
     [.getTasks, .consoleError "Failed to fetch tasks:"])

/-- `handleAddTask` (App.js lines 36-60): if `newTaskDescription.trim()`
is empty, alert and return without any network call; otherwise POST the
raw (untrimmed) description; on `!response.ok` or any thrown error, log
and leave state unchanged; on success append the returned task
(`tasks.push(newTask); setTasks(tasks)`) and clear the input field. -/
def handleAddTask (s : AppState) (r : HttpResult Task) :
    AppState × List Effect :=
  if jsTrim s.newTaskDescription = "" then
    (s, [.alert "Task description cannot be empty!"])
  else
    match r with
    | .response ok _ body =>
      if ok then
        match body with
        | some newTask =>
          ({ s with tasks := s.tasks ++ [newTask], newTaskDescription := "" },
           [.postTask s.newTaskDescription])
        | none =>
          (s, [.postTask s.newTaskDescription,
               .consoleError "Failed to add task:"])
      else
        (s, [.postTask s.newTaskDescription,
             .consoleError "Failed to add task:"])
    | .networkError =>
      (s, [.postTask s.newTaskDescription,
           .consoleError "Failed to add task:"])

/-- `handleToggleComplete` (App.js lines 62-82): PUT
`/tasks/{taskId}` with body `{ completed: !currentStatus }`.  The
response body is parsed *before* `response.ok` is inspected, so a parse
failure lands in the `catch` whatever the status; on `response.ok` the
parsed task is merged by `tasks.map(task => task.id === updatedTask.id
? updatedTask : task)`; on a non-success status the handler only logs. -/
def handleToggleComplete (s : AppState) (taskId : Nat)
    (currentStatus : Bool) (r : HttpResult Task) :
    AppState × List Effect :=
  match r with
  | .response ok _ body =>
    match body with
    | some updatedTask =>
      if ok then
        ({ s with tasks := s.tasks.map fun task =>
            if task.id = updatedTask.id then updatedTask else task },
         [.putTask taskId (!currentStatus)])
      else
        (s, [.putTask taskId (!currentStatus),
             .consoleError "Failed to update task:"])
    | none =>
      (s, [.putTask taskId (!currentStatus),
           .consoleError "Error toggling task status:"])
  | .networkError =>
    (s, [.putTask taskId (!currentStatus),
         .consoleError "Error toggling task status:"])

/-- `fetchUsers` (App.js lines 84-95): GET `/users`; unlike
`fetchTasks` it never inspects `response.ok`, so any response whose
body parses replaces `users`; only a parse failure or a network error
reaches the `catch` that logs.  The `finally` clears `userLoading`. -/
def fetchUsers (s : AppState) (r : HttpResult (List User)) :
    AppState × List Effect :=
  match r with
  | .response _ _ body =>
    match body with
    | some data =>
      ({ s with users := data, userLoading := false }, [.getUsers])
    | none =>
      ({ s with userLoading := false },
       [.getUsers, .consoleError "Failed to fetch users:"])
  | .networkError =>
    ({ s with userLoading := false },
     [.getUsers, .consoleError "Failed to fetch users:"])

/-- `handleCreateUser` (App.js lines 97-128): if any of the three
fields trims to empty, alert and return without a network call;
otherwise POST the raw field values; on `!response.ok` log the parsed
error body and alert with `errorData.detail?.message` or a generic
message; on success append the returned user, clear the three fields
and invoke `fetchUsers()` (the trailing `.getUsers` effect); any thrown
error logs and alerts generically. -/
def handleCreateUser (s : AppState) (r : UserCreateResult) :
    AppState × List Effect :=
  if jsTrim s.newUsername = "" ∨ jsTrim s.newUserEmail = "" ∨
      jsTrim s.newUserPassword = "" then
    (s, [.alert "All user fields are required!"])
  else
    match r with
    | .success body =>
      match body with
      | some newUser =>
        ({ s with
            users := s.users ++ [newUser]
            newUsername := ""
            newUserEmail := ""
            newUserPassword := "" },
         [.postUser s.newUsername s.newUserEmail s.newUserPassword,
          .getUsers])
      | none =>
        (s, [.postUser s.newUsername s.newUserEmail s.newUserPassword,
             .consoleError "Error creating user:",
             .alert "An unexpected error occurred while creating user."])
    | .failure _ errorBody =>
      match errorBody with
      | some d =>
        (s, [.postUser s.newUsername s.newUserEmail s.newUserPassword,
             .consoleError "Failed to create user:",
             .alert ("Error creating user: " ++ d.getD "Unknown error")])
      | none =>
        (s, [.postUser s.newUsername s.newUserEmail s.newUserPassword,
             .consoleError "Error creating user:",
             .alert "An unexpected error occurred while creating user."])
    | .networkError =>
      (s, [.postUser s.newUsername s.newUserEmail s.newUserPassword,
           .consoleError "Error creating user:",
           .alert "An unexpected error occurred while creating user."])

/-! ## Sample records used by concrete counterexamples and witnesses -/

/-- A sample stored user. -/
def sampleUserA : User := ⟨1, "alice", "a@x.com", "secret"⟩

/-- A distinct sample user returned by the server. -/
def sampleUserB : User := ⟨2, "bob", "b@x.com", "hunter2"⟩

/-! ## Claims -/

/-- C1: for every task list, every server-returned task `u`, and every
successful ToggleComplete round trip (`response.ok` with a parsed
body), the resulting task list has the same length as the old one and,
position by position, equals the old entry when its `id` differs from
`u.id` and equals `u` when it matches — i.e. the old list with the
matching entry replaced and every other entry the same value (the
`map` in the source returns the very same object there) in the same
position. -/
theorem C1_toggle_success_pointwise_merge (s : AppState) (taskId : Nat)
    (currentStatus : Bool) (st : Nat) (u : Task) :
    ((handleToggleComplete s taskId currentStatus
        (.response true st (some u))).1.tasks.length = s.tasks.length) ∧
    ∀ i : Nat, (handleToggleComplete s taskId currentStatus
        (.response true st (some u))).1.tasks[i]?
      = (s.tasks[i]?).map fun t => if t.id = u.id then u else t := by
  refine ⟨?_, ?_⟩
  · simp [handleToggleComplete]
  · intro i
    simp [handleToggleComplete, List.getElem?_map]

/-- C2 counterexample: `fetchUsers` never inspects `response.ok`, so a
non-success (`ok = false`, status 500) response whose body parses as a
user list *does* replace the local user list with that body — refuting
the claim that User List shares Task List's failure policy and that a
non-success response never replaces local state. -/
theorem C2_counterexample :
    (fetchUsers ⟨[], "", false, [sampleUserA], "", "", "", false⟩
        (.response false 500 (some [sampleUserB]))).1.users
      = [sampleUserB] ∧ [sampleUserB] ≠ [sampleUserA] := by
  exact ⟨rfl, by decide⟩

/-- C2 amended: User List() does not share Task List's failure policy:
it ignores the HTTP status, so any response whose body parses as JSON
— success or not — replaces the local user list with that body.  Only
a network failure or a body that fails to parse aborts the operation,
leaves the prior user list untouched, and records a diagnostic. -/
theorem C2_user_list_failure_policy (s : AppState) (ok : Bool) (st : Nat)
    (body : List User) :
    ((fetchUsers s (.response ok st (some body))).1.users = body) ∧
    ((fetchUsers s (.response ok st none)).1.users = s.users) ∧
    ((fetchUsers s .networkError).1.users = s.users) ∧
    (Effect.consoleError "Failed to fetch users:"
      ∈ (fetchUsers s (.response ok st none)).2) ∧
    (Effect.consoleError "Failed to fetch users:"
      ∈ (fetchUsers s .networkError).2) := by
  refine ⟨rfl, rfl, rfl, ?_, ?_⟩ <;> simp [fetchUsers]

/-- C3: every transport/server failure of Task List (non-success
status, parse failure, or network error) and of ToggleComplete
(non-success status, parse failure, or network error) leaves the task
list unchanged and produces exactly the issued request plus one
`console.error` diagnostic — no `alert` (silent to the user) and no
second request (no retry). -/
theorem C3_task_failure_silent (s : AppState) (st : Nat)
    (b : Option (List Task)) (taskId : Nat) (cur : Bool) (u : Task)
    (ok : Bool) :
    (fetchTasks s (.response false st b)
      = ({ s with taskLoading := false },
         [.getTasks, .consoleError "Failed to fetch tasks:"])) ∧
    (fetchTasks s (.response true st none)
      = ({ s with taskLoading := false },
         [.getTasks, .consoleError "Failed to fetch tasks:"])) ∧
    (fetchTasks s .networkError
      = ({ s with taskLoading := false },
         [.getTasks, .consoleError "Failed to fetch tasks:"])) ∧
    (handleToggleComplete s taskId cur (.response false st (some u))
      = (s, [.putTask taskId (!cur),
             .consoleError "Failed to update task:"])) ∧
    (handleToggleComplete s taskId cur (.response ok st none)
      = (s, [.putTask taskId (!cur),
             .consoleError "Error toggling task status:"])) ∧
    (handleToggleComplete s taskId cur .networkError
      = (s, [.putTask taskId (!cur),
             .consoleError "Error toggling task status:"])) :=
  ⟨rfl, rfl, rfl, rfl, rfl, rfl⟩

/-- C7: ToggleComplete(taskId, currentStatus) always issues a PUT for
`taskId` whose body's `completed` field is `!currentStatus`, whatever
the round trip's outcome; and the concrete scenario: on the list
`[{id:1, description:"buy milk", completed:false}]`, ToggleComplete(1,
false) with server response `{id:1, description:"buy milk",
completed:true}` yields `[{id:1, description:"buy milk",
completed:true}]`. -/
theorem C7_toggle_sends_negation (s : AppState) (taskId : Nat)
    (cur : Bool) (r : HttpResult Task) :
    (Effect.putTask taskId (!cur) ∈ (handleToggleComplete s taskId cur r).2) ∧
    ((handleToggleComplete
        ⟨[⟨1, "buy milk", false⟩], "", false, [], "", "", "", false⟩
        1 false (.response true 200 (some ⟨1, "buy milk", true⟩))).1.tasks
      = [⟨1, "buy milk", true⟩]) := by
  refine ⟨?_, rfl⟩
  cases r with
  | response ok st body =>
    cases body <;> cases ok <;> simp [handleToggleComplete]
  | networkError => simp [handleToggleComplete]

/-- C10: a successful ToggleComplete response whose returned task's id
matches no entry of the local list leaves the task list exactly
unchanged. -/
theorem C10_toggle_unmatched_noop (s : AppState) (taskId : Nat)
    (cur : Bool) (st : Nat) (u : Task)
    (h : ∀ t ∈ s.tasks, t.id ≠ u.id) :
    (handleToggleComplete s taskId cur
        (.response true st (some u))).1.tasks = s.tasks := by
  have hmap : s.tasks.map (fun t => if t.id = u.id then u else t)
      = s.tasks := by
    conv_rhs => rw [← List.map_id s.tasks]
    exact List.map_congr_left fun t ht => by simp [h t ht]
  simpa [handleToggleComplete] using hmap

/-- C10 witness: the unmatched-id merge at a concrete list. -/
theorem C10_witness :
    (handleToggleComplete
        ⟨[⟨1, "buy milk", false⟩], "", false, [], "", "", "", false⟩
        1 false (.response true 200 (some ⟨2, "other", true⟩))).1.tasks
      = [⟨1, "buy milk", false⟩] :=
  C10_toggle_unmatched_noop _ 1 false 200 ⟨2, "other", true⟩ (by decide)

/-- C4: when the task description trims to empty, `handleAddTask`
performs no network request and no state change, only the blocking
`alert`; likewise, when any of the three user fields trims to empty,
`handleCreateUser` performs no network request and no state change,
only the blocking `alert`.  (The exact-output equalities show the
effect list holds the one alert and nothing else.) -/
theorem C4_validation_rejects (s1 s2 : AppState) (r : HttpResult Task)
    (ru : UserCreateResult)
    (ht : jsTrim s1.newTaskDescription = "")
    (hu : jsTrim s2.newUsername = "" ∨ jsTrim s2.newUserEmail = "" ∨
      jsTrim s2.newUserPassword = "") :
    (handleAddTask s1 r
      = (s1, [.alert "Task description cannot be empty!"])) ∧
    (handleCreateUser s2 ru
      = (s2, [.alert "All user fields are required!"])) := by
  refine ⟨?_, ?_⟩
  · unfold handleAddTask
    rw [if_pos ht]
  · unfold handleCreateUser
    rw [if_pos hu]

/-- C4 witness: whitespace-only description and an empty username at
concrete states. -/
theorem C4_witness :
    (handleAddTask ⟨[], "   ", false, [], "u", "e", "p", false⟩
        .networkError
      = (⟨[], "   ", false, [], "u", "e", "p", false⟩,
         [.alert "Task description cannot be empty!"])) ∧
    (handleCreateUser ⟨[], "x", false, [], "", "e", "p", false⟩
        .networkError
      = (⟨[], "x", false, [], "", "e", "p", false⟩,
         [.alert "All user fields are required!"])) :=
  C4_validation_rejects
    ⟨[], "   ", false, [], "u", "e", "p", false⟩
    ⟨[], "x", false, [], "", "e", "p", false⟩
    .networkError .networkError (by decide) (by decide)

/-- C5: for a description that is non-empty after trimming, a
successful creation round trip whose returned task carries a fresh
server-assigned id and `completed = false` appends that task to the
local list, the new task occurs in the list exactly once (the filter by
its id is the singleton), and the input field is cleared. -/
theorem C5_create_success_appends (s : AppState) (st : Nat) (u : Task)
    (hne : jsTrim s.newTaskDescription ≠ "")
    (hfresh : ∀ t ∈ s.tasks, t.id ≠ u.id)
    (hc : u.completed = false) :
    ((handleAddTask s (.response true st (some u))).1.tasks
      = s.tasks ++ [u]) ∧
    ((handleAddTask s (.response true st (some u))).1.tasks.filter
        (fun t => t.id == u.id) = [u]) ∧
    ((handleAddTask s (.response true st (some u))).1.newTaskDescription
      = "") ∧
    u.completed = false := by
  have harg : (handleAddTask s (.response true st (some u))).1
      = { s with tasks := s.tasks ++ [u], newTaskDescription := "" } := by
    unfold handleAddTask
    rw [if_neg hne]
    rfl
  have hnil : s.tasks.filter (fun t => t.id == u.id) = [] := by
    rw [List.filter_eq_nil_iff]
    intro t ht
    simpa using hfresh t ht
  refine ⟨by rw [harg], ?_, by rw [harg], hc⟩
  rw [harg]
  show (s.tasks ++ [u]).filter (fun t => t.id == u.id) = [u]
  rw [List.filter_append, hnil]
  simp

/-- C5 witness: creating "buy milk" into an empty list with server
response `{id:1, description:"buy milk", completed:false}`. -/
theorem C5_witness :
    ((handleAddTask ⟨[], "buy milk", false, [], "", "", "", false⟩
        (.response true 201 (some ⟨1, "buy milk", false⟩))).1.tasks
      = [] ++ [⟨1, "buy milk", false⟩]) ∧
    ((handleAddTask ⟨[], "buy milk", false, [], "", "", "", false⟩
        (.response true 201 (some ⟨1, "buy milk", false⟩))).1.tasks.filter
        (fun t => t.id == 1) = [⟨1, "buy milk", false⟩]) ∧
    ((handleAddTask ⟨[], "buy milk", false, [], "", "", "", false⟩
        (.response true 201
          (some ⟨1, "buy milk", false⟩))).1.newTaskDescription = "") ∧
    (⟨1, "buy milk", false⟩ : Task).completed = false :=
  C5_create_success_appends ⟨[], "buy milk", false, [], "", "", "", false⟩
    201 ⟨1, "buy milk", false⟩ (by decide) (by decide) rfl

/-- C6: for a user-creation input whose three fields are all non-empty
after trimming, a successful round trip appends exactly the
server-returned user to the user list, resets the three input fields to
empty, and triggers the `fetchUsers()` re-fetch (the trailing
`.getUsers` effect after the POST). -/
theorem C6_user_create_success (s : AppState) (u : User)
    (h1 : jsTrim s.newUsername ≠ "") (h2 : jsTrim s.newUserEmail ≠ "")
    (h3 : jsTrim s.newUserPassword ≠ "") :
    handleCreateUser s (.success (some u))
      = ({ s with
            users := s.users ++ [u]
            newUsername := ""
            newUserEmail := ""
            newUserPassword := "" },
         [.postUser s.newUsername s.newUserEmail s.newUserPassword,
          .getUsers]) := by
  have hcond : ¬(jsTrim s.newUsername = "" ∨ jsTrim s.newUserEmail = ""
      ∨ jsTrim s.newUserPassword = "") := by
    push_neg
    exact ⟨h1, h2, h3⟩
  unfold handleCreateUser
  rw [if_neg hcond]

/-- C6 witness: the spec scenario Create("alice","a@x.com","secret")
with server response `{id:7, username:"alice", email:"a@x.com",
password:"secret"}`. -/
theorem C6_witness :
    handleCreateUser
        ⟨[], "", false, [], "alice", "a@x.com", "secret", false⟩
        (.success (some ⟨7, "alice", "a@x.com", "secret"⟩))
      = (⟨[], "", false, [⟨7, "alice", "a@x.com", "secret"⟩], "", "", "",
          false⟩,
         [.postUser "alice" "a@x.com" "secret", .getUsers]) :=
  C6_user_create_success
    ⟨[], "", false, [], "alice", "a@x.com", "secret", false⟩
    ⟨7, "alice", "a@x.com", "secret"⟩ (by decide) (by decide) (by decide)

/-- C8: two successful toggle responses for the same task id, applied
in arrival order (the request parameters `a, ca` and `b, cb` of the two
calls are arbitrary, so the issue order is irrelevant), leave every
entry carrying that id equal to the second-applied response, and such
an entry exists whenever the original list had one. -/
theorem C8_last_write_wins (s : AppState) (a b : Nat) (ca cb : Bool)
    (st1 st2 : Nat) (u1 u2 : Task) (hid : u1.id = u2.id) :
    (∀ t ∈ (handleToggleComplete
        (handleToggleComplete s a ca (.response true st1 (some u1))).1
        b cb (.response true st2 (some u2))).1.tasks,
      t.id = u2.id → t = u2) ∧
    ((∃ t ∈ s.tasks, t.id = u2.id) →
      u2 ∈ (handleToggleComplete
        (handleToggleComplete s a ca (.response true st1 (some u1))).1
        b cb (.response true st2 (some u2))).1.tasks) := by
  have hts : (handleToggleComplete
        (handleToggleComplete s a ca (.response true st1 (some u1))).1
        b cb (.response true st2 (some u2))).1.tasks
      = (s.tasks.map fun t => if t.id = u1.id then u1 else t).map
          fun t => if t.id = u2.id then u2 else t := by
    simp [handleToggleComplete]
  constructor
  · rw [hts]
    intro t ht hid2
    rcases List.mem_map.mp ht with ⟨x, _, hx⟩
    by_cases h : x.id = u2.id
    · rw [← hx, if_pos h]
    · rw [← hx, if_neg h]
      rw [← hx, if_neg h] at hid2
      exact absurd hid2 h
  · rintro ⟨t, htmem, htid⟩
    rw [hts]
    refine List.mem_map.mpr ⟨if t.id = u1.id then u1 else t,
      List.mem_map.mpr ⟨t, htmem, rfl⟩, ?_⟩
    have h1 : t.id = u1.id := by rw [hid]; exact htid
    rw [if_pos h1, if_pos hid]

/-- C8 witness: two toggle responses for task 1 arriving in order; the
second response (completed back to false) wins. -/
theorem C8_witness :
    (⟨1, "buy milk", false⟩ : Task) ∈ (handleToggleComplete
        (handleToggleComplete
          ⟨[⟨1, "buy milk", false⟩], "", false, [], "", "", "", false⟩
          1 false (.response true 200 (some ⟨1, "buy milk", true⟩))).1
        1 true (.response true 200
          (some ⟨1, "buy milk", false⟩))).1.tasks :=
  (C8_last_write_wins
      ⟨[⟨1, "buy milk", false⟩], "", false, [], "", "", "", false⟩
      1 1 false true 200 200 ⟨1, "buy milk", true⟩ ⟨1, "buy milk", false⟩
      rfl).2 ⟨⟨1, "buy milk", false⟩, by decide, rfl⟩

/-- C9: trimming is used only for the emptiness check — once
validation passes, the POST carries exactly the raw field values: the
task-creation request body holds the untrimmed description, the
user-creation request body holds the untrimmed username, email and
password, and no request with any other payload is issued. -/
theorem C9_sends_untrimmed (s1 s2 : AppState) (r : HttpResult Task)
    (ru : UserCreateResult)
    (ht : jsTrim s1.newTaskDescription ≠ "")
    (hu1 : jsTrim s2.newUsername ≠ "") (hu2 : jsTrim s2.newUserEmail ≠ "")
    (hu3 : jsTrim s2.newUserPassword ≠ "") :
    (Effect.postTask s1.newTaskDescription ∈ (handleAddTask s1 r).2) ∧
    (∀ d, Effect.postTask d ∈ (handleAddTask s1 r).2 →
      d = s1.newTaskDescription) ∧
    (Effect.postUser s2.newUsername s2.newUserEmail s2.newUserPassword
      ∈ (handleCreateUser s2 ru).2) ∧
    (∀ a e p, Effect.postUser a e p ∈ (handleCreateUser s2 ru).2 →
      a = s2.newUsername ∧ e = s2.newUserEmail ∧
        p = s2.newUserPassword) := by
  have hcond : ¬(jsTrim s2.newUsername = "" ∨ jsTrim s2.newUserEmail = ""
      ∨ jsTrim s2.newUserPassword = "") := by
    push_neg
    exact ⟨hu1, hu2, hu3⟩
  refine ⟨?_, ?_, ?_, ?_⟩
  · cases r with
    | response ok st body =>
      cases body <;> cases ok <;> simp [handleAddTask, ht]
    | networkError => simp [handleAddTask, ht]
  · intro d hd
    cases r with
    | response ok st body =>
      cases body <;> cases ok <;>
        simpa [handleAddTask, ht] using hd
    | networkError => simpa [handleAddTask, ht] using hd
  · cases ru with
    | success body => cases body <;> simp [handleCreateUser, hcond]
    | failure st eb => cases eb <;> simp [handleCreateUser, hcond]
    | networkError => simp [handleCreateUser, hcond]
  · intro a e p hmem
    cases ru with
    | success body =>
      cases body <;> simpa [handleCreateUser, hcond] using hmem
    | failure st eb =>
      cases eb <;> simpa [handleCreateUser, hcond] using hmem
    | networkError => simpa [handleCreateUser, hcond] using hmem

/-- C9 witness: whitespace-padded inputs; the issued requests carry the
padded, untrimmed values. -/
theorem C9_witness :
    (Effect.postTask "  buy milk " ∈ (handleAddTask
        ⟨[], "  buy milk ", false, [], "", "", "", false⟩
        .networkError).2) ∧
    (Effect.postUser " alice " " a@x.com " " secret "
      ∈ (handleCreateUser
        ⟨[], "", false, [], " alice ", " a@x.com ", " secret ", false⟩
        .networkError).2) :=
  ⟨(C9_sends_untrimmed
      ⟨[], "  buy milk ", false, [], "", "", "", false⟩
      ⟨[], "", false, [], " alice ", " a@x.com ", " secret ", false⟩
      .networkError .networkError (by decide) (by decide) (by decide)
      (by decide)).1,
   (C9_sends_untrimmed
      ⟨[], "  buy milk ", false, [], "", "", "", false⟩
      ⟨[], "", false, [], " alice ", " a@x.com ", " secret ", false⟩
      .networkError .networkError (by decide) (by decide) (by decide)
      (by decide)).2.2.1⟩

end Prueba2
